import Mathlib

/-!
Shallow embedding of `conllumatches.py`: a tool that aligns two CoNLL-U
sentence streams by non-whitespace character spans and reports matching
sentence pairs.

Python strings are modelled as `List Char`.  A file is modelled as the list
of its lines with the trailing newline removed (the source iterates over the
open stream and applies `l.rstrip('\n')` to each line; since a text-file line
cannot contain an interior newline this is the same thing).
-/

set_option autoImplicit false

namespace ConlluMatches

/-- Python strings, modelled as lists of characters. -/
abbrev PyStr := List Char

/-- `str.isspace` on one character.  Python's `isspace` accepts the ASCII
whitespace characters (and some Unicode ones irrelevant to this development):
space, tab, newline, vertical tab, form feed, carriage return. -/
def pyIsSpace (c : Char) : Bool :=
  c = ' ' || c = '\t' || c = '\n' || c = '\x0b' || c = '\x0c' || c = '\r'

/-- `s.split(sep)` for a one-character separator: splits at every occurrence
of `sep`, keeping empty fields (so the result always has
`1 + number of separators` elements and is never `[]`). -/
def pySplit (sep : Char) : List Char → List PyStr
  | [] => [[]]
  | c :: cs =>
    match pySplit sep cs with
    | [] => [[]]
    | f :: fs => if c = sep then [] :: f :: fs else (c :: f) :: fs

/-- `sep.join(fields)` for a one-character separator. -/
def pyJoin (sep : Char) : List PyStr → PyStr
  | [] => []
  | [f] => f
  | f :: fs => f ++ sep :: pyJoin sep fs

/-- `s.startswith(p)`. -/
def pyStartsWith (s p : PyStr) : Bool :=
  decide (p <+: s)

/-- `str(n)` for a non-negative integer. -/
def natToPyStr (n : Nat) : PyStr :=
  (Nat.repr n).data

/-- The Python exceptions the program can raise.  `FormatError` is the
program's own class; `ValueError` is raised by `Sentence.text`;
`IndexError` is raised by `str.format` when a replacement index is out of
range; `AssertionError` by a failing `assert`. -/
inductive PyError where
  | formatError (msg : PyStr)
  | valueError (msg : PyStr)
  | indexError
  | assertionError
  deriving Repr, DecidableEq

/-- `template.format(*args)` with automatic field numbering: each `{}` in the
template consumes the next positional argument; if the arguments run out at a
placeholder, Python raises `IndexError` ("Replacement index ... out of
range"). -/
def pyFormat : List Char → List PyStr → Except PyError PyStr
  | [], _ => .ok []
  | [c], _ => .ok [c]
  | c1 :: c2 :: rest, args =>
    if c1 = '\x7b' && c2 = '\x7d' then
      match args with
      | [] => .error .indexError
      | a :: args2 => (pyFormat rest args2).map fun r => a ++ r
    else (pyFormat (c2 :: rest) args).map fun r => c1 :: r

/-- One CoNLL-U token row: ten opaque tab-separated fields
(cf. `class Word`). -/
structure Word where
  id : PyStr
  form : PyStr
  lemma_ : PyStr
  upos : PyStr
  xpos : PyStr
  feats : PyStr
  head : PyStr
  deprel : PyStr
  deps : PyStr
  misc : PyStr
  deriving Repr, DecidableEq

/-- `Word.__str__`: the ten fields joined by tabs. -/
def wordStr (w : Word) : PyStr :=
  pyJoin '\t' [w.id, w.form, w.lemma_, w.upos, w.xpos, w.feats,
               w.head, w.deprel, w.deps, w.misc]

/-- One sentence: comment lines (verbatim), token rows, the source path, the
1-based line number of its first line, and its running non-whitespace
character offset (cf. `class Sentence`; the lazily cached `_text` field is an
optimisation with no observable effect and is not modelled as state). -/
structure Sentence where
  comments : List PyStr
  words : List Word
  source : PyStr
  lineno : Nat
  offset : Nat
  deriving Repr, DecidableEq

/-- `Sentence.char_length`: total number of characters in the token forms
that are not whitespace. -/
def Sentence.char_length (s : Sentence) : Nat :=
  (s.words.map fun w => ((w.form.filter fun c => !pyIsSpace c)).length).sum

/-- `Sentence.span`: `(offset, offset + char_length)`. -/
def Sentence.span (s : Sentence) : Nat × Nat :=
  (s.offset, s.offset + s.char_length)

/-- `Sentence.chars`: the concatenation of all token forms. -/
def Sentence.chars (s : Sentence) : PyStr :=
  (s.words.map fun w => w.form).flatten

/-- The comment prefix looked for by `Sentence.text`. -/
def textMarker : PyStr := "# text = ".data

/-- `Sentence.text`: the value of the single `# text = ` comment; raises
`ValueError` when there is no such comment or more than one. -/
def Sentence.text (s : Sentence) : Except PyError PyStr :=
  let text_lines := s.comments.filter fun c => pyStartsWith c textMarker
  match text_lines with
  | [] =>
    match pyFormat "no \"# text\" line: \x7b\x7d line \x7b\x7d".data
        [s.source, natToPyStr s.lineno] with
    | .error e => .error e
    | .ok msg => .error (.valueError msg)
  | [t] => .ok (t.drop textMarker.length)
  | _ =>
    match pyFormat "multiple \"# text\" lines: \x7b\x7d line \x7b\x7d".data
        [s.source, natToPyStr s.lineno] with
    | .error e => .error e
    | .ok msg => .error (.valueError msg)

/-- `Sentence.__str__`: comments, then token rows, joined by newlines with
one trailing newline (from joining the final `''`). -/
def sentenceStr (s : Sentence) : PyStr :=
  pyJoin '\n' (s.comments ++ s.words.map wordStr ++ [[]])

/-- The blank-line test `not l or l.isspace()`: true for the empty line and
for a non-empty all-whitespace line. -/
def isBlankLine (l : PyStr) : Bool :=
  l.isEmpty || l.all pyIsSpace

/-- `l.startswith('#')`. -/
def isCommentLine (l : PyStr) : Bool :=
  pyStartsWith l ['#']

/-- A line treated as a token row: neither blank nor a comment. -/
def isTokenLine (l : PyStr) : Bool :=
  !isBlankLine l && !isCommentLine l

/-- `Word(*fields)` (only reached when `fields.length = 10`). -/
def wordOfFields (fields : List PyStr) : Word :=
  ⟨fields.getD 0 [], fields.getD 1 [], fields.getD 2 [], fields.getD 3 [],
   fields.getD 4 [], fields.getD 5 [], fields.getD 6 [], fields.getD 7 [],
   fields.getD 8 [], fields.getD 9 []⟩

/-- Template of the empty-sentence `FormatError` message (2 placeholders,
formatted with 2 arguments). -/
def emptySentenceTemplate : PyStr :=
  "empty sentence on line \x7b\x7d in \x7b\x7d".data

/-- Template of the wrong-field-count `FormatError` message.  The source
builds it from two adjacent string literals, yielding 5 placeholders
(note the missing space in `line \x7b\x7din`), but then formats it with only
4 arguments. -/
def badFieldsTemplate : PyStr :=
  "expected 10 tab-separated fields, got \x7b\x7d on line \x7b\x7din \x7b\x7d, got \x7b\x7d: \x7b\x7d".data

/-- The `for l in self.stream` loop of `Conllu._get_sentence`, over the
remaining input lines, carrying the `comments` and `words` accumulators.
Returns the parsed sentence (or `none` at end of input), the unconsumed
lines, and the updated `lineno`, `offset` and `finished` fields. -/
def getSentenceAux (path : PyStr) (start_lineno : Nat) :
    List PyStr → Nat → Nat → List PyStr → List Word →
    Except PyError (Option Sentence × List PyStr × Nat × Nat × Bool)
  | [], lineno, offset, _, _ =>
    -- the loop ends without a blank line: a trailing partial sentence is
    -- dropped and `finished` is set
    .ok (none, [], lineno, offset, true)
  | l :: rest, lineno, offset, comments, words =>
    let lineno := lineno + 1
    if isBlankLine l then
      if words.isEmpty then
        match pyFormat emptySentenceTemplate [natToPyStr lineno, path] with
        | .error e => .error e
        | .ok msg => .error (.formatError msg)
      else
        let s : Sentence := ⟨comments, words, path, start_lineno, offset⟩
        .ok (some s, rest, lineno, offset + s.char_length, false)
    else if isCommentLine l then
      getSentenceAux path start_lineno rest lineno offset (comments ++ [l]) words
    else
      let fields := pySplit '\t' l
      if fields.length ≠ 10 then
        -- `FormatError(template.format(lineno, path, len(fields), l))`: the
        -- `format` call itself raises before `FormatError` is constructed
        -- when the template has more placeholders than arguments
        match pyFormat badFieldsTemplate
            [natToPyStr lineno, path, natToPyStr fields.length, l] with
        | .error e => .error e
        | .ok msg => .error (.formatError msg)
      else
        getSentenceAux path start_lineno rest lineno offset comments
          (words ++ [wordOfFields fields])

/-- The mutable fields of a `Conllu` object other than the lookahead:
path, remaining input lines, `lineno`, non-whitespace `offset`,
`finished`. -/
structure ConlluState where
  path : PyStr
  lines : List PyStr
  lineno : Nat
  offset : Nat
  finished : Bool
  deriving Repr, DecidableEq

/-- `Conllu._get_sentence`. -/
def ConlluState.get_sentence (st : ConlluState) :
    Except PyError (Option Sentence × ConlluState) :=
  if st.finished then .ok (none, st)
  else
    match getSentenceAux st.path (st.lineno + 1) st.lines st.lineno st.offset
        [] [] with
    | .error e => .error e
    | .ok (os, lines, lineno, offset, fin) =>
      .ok (os, { st with lines := lines, lineno := lineno, offset := offset,
                         finished := fin })

/-- A `Conllu` stream: parser state plus the lookahead `current` sentence. -/
structure Conllu where
  st : ConlluState
  current : Option Sentence
  deriving Repr, DecidableEq

/-- `Conllu.__init__`, given the lines of the file at `path`: `lineno` and
`offset` start at 0, `finished` at `False`, and the first sentence is parsed
eagerly into `current`. -/
def mkConllu (path : PyStr) (lines : List PyStr) : Except PyError Conllu :=
  match ConlluState.get_sentence ⟨path, lines, 0, 0, false⟩ with
  | .error e => .error e
  | .ok (s, st) => .ok ⟨st, s⟩

/-- `Conllu.advance`: returns the lookahead and replaces it with the next
parsed sentence. -/
def Conllu.advance (c : Conllu) : Except PyError (Option Sentence × Conllu) :=
  match c.st.get_sentence with
  | .error e => .error e
  | .ok (nxt, st) => .ok (c.current, ⟨st, nxt⟩)

/-- The `Counter` of statistics, modelled as the sequence of labels passed to
`stats[label] += 1`; a label's count is its number of occurrences in the
sequence. -/
abbrev Stats := List PyStr

/-- The count recorded for one label. -/
def statCount (stats : Stats) (label : PyStr) : Nat :=
  stats.count label

/-- The command-line options relevant to matching. -/
structure Options where
  no_duplicates : Bool
  min_length : Option Int
  deriving Repr, DecidableEq

/-- `options.min_length is not None and len(s1_forms) < options.min_length`. -/
def minLengthFails (options : Options) (n : Nat) : Bool :=
  match options.min_length with
  | none => false
  | some m => decide ((n : Int) < m)

/-- `process_match`: the ordered per-pair checks.  The persistent
`process_match.seen` set is threaded explicitly as `seen`, and the emitted
output (`print(sentence1)`) is returned as the last component. -/
def process_match (sentence1 sentence2 : Sentence) (options : Options)
    (stats : Stats) (seen : List PyStr) :
    Except PyError (Bool × Stats × List PyStr × Option Sentence) :=
  let s1_forms := sentence1.words.map fun w => w.form
  let s2_forms := sentence2.words.map fun w => w.form
  if s1_forms ≠ s2_forms then
    .ok (false, stats ++ ["tokenization mismatch".data], seen, none)
  else
    let stats := stats ++ ["tokenization match".data]
    let s1_deps := sentence1.words.map fun w => (w.head, w.deprel)
    let s2_deps := sentence2.words.map fun w => (w.head, w.deprel)
    if s1_deps ≠ s2_deps then
      .ok (false, stats ++ ["head+deprel mismatch".data], seen, none)
    else
      let stats := stats ++ ["head+deprel match".data]
      if minLengthFails options s1_forms.length then
        .ok (false, stats ++ ["under minimum length".data], seen, none)
      else if options.no_duplicates then
        match sentence1.text with
        | .error e => .error e
        | .ok text =>
          if text ∈ seen then
            .ok (false, stats ++ ["duplicate".data], seen, none)
          else
            .ok (true, stats ++ ["all OK".data], seen ++ [text], some sentence1)
      else
        .ok (true, stats ++ ["all OK".data], seen, some sentence1)

/-- Which branch of the `if/elif` chain of the alignment loop fires, as a
function of the two spans `(a0, a1)` and `(b0, b1)`.  `assertFail` stands for
reaching the final `else` with its `assert` condition false. -/
inductive AlignBranch where
  | advanceBoth
  | advance1
  | advance2
  | exactMatch
  | assertFail
  deriving Repr, DecidableEq

/-- The branch selection of the alignment loop in `main`. -/
def alignBranch (a0 a1 b0 b1 : Nat) : AlignBranch :=
  if a0 ≠ b0 ∧ a1 = b1 then .advanceBoth
  else if a0 < b0 ∨ a1 < b1 then .advance1
  else if b0 < a0 ∨ b1 < a1 then .advance2
  else if a0 = b0 ∧ a1 = b1 then .exactMatch
  else .assertFail

/-- `'span mismatch ({})'.format(n)`. -/
def spanMismatchLabel (n : PyStr) : PyStr :=
  "span mismatch (".data ++ n ++ ")".data

/-- `'span match ({})'.format(n)`. -/
def spanMatchLabel (n : PyStr) : PyStr :=
  "span match (".data ++ n ++ ")".data

/-- The desync check of `main`: true exactly when a warning line is written
to stderr (the warning has no effect on state or control flow). -/
def desyncWarning (A B : Sentence) : Bool :=
  decide (A.span ≠ B.span) && decide (A.chars = B.chars)

/-- One iteration of the alignment loop in `main`, given the two current
sentences `A = c1.current` and `B = c2.current`.  Returns the updated
streams, statistics, seen-set and emitted sentences. -/
def alignStep (n1 n2 : PyStr) (options : Options) (c1 c2 : Conllu)
    (A B : Sentence) (stats : Stats) (seen : List PyStr)
    (out : List Sentence) :
    Except PyError (Conllu × Conllu × Stats × List PyStr × List Sentence) :=
  let (a0, a1) := A.span
  let (b0, b1) := B.span
  match alignBranch a0 a1 b0 b1 with
  | .advanceBoth =>
    let stats := stats ++ [spanMismatchLabel n1, spanMismatchLabel n2]
    match c1.advance with
    | .error e => .error e
    | .ok (_, c1) =>
      match c2.advance with
      | .error e => .error e
      | .ok (_, c2) => .ok (c1, c2, stats, seen, out)
  | .advance1 =>
    let stats := stats ++ [spanMismatchLabel n1]
    match c1.advance with
    | .error e => .error e
    | .ok (_, c1) => .ok (c1, c2, stats, seen, out)
  | .advance2 =>
    let stats := stats ++ [spanMismatchLabel n2]
    match c2.advance with
    | .error e => .error e
    | .ok (_, c2) => .ok (c1, c2, stats, seen, out)
  | .exactMatch =>
    let stats := stats ++ [spanMatchLabel n1, spanMatchLabel n2]
    match process_match A B options stats seen with
    | .error e => .error e
    | .ok (_, stats, seen, emitted) =>
      match c1.advance with
      | .error e => .error e
      | .ok (_, c1) =>
        match c2.advance with
        | .error e => .error e
        | .ok (_, c2) => .ok (c1, c2, stats, seen, out ++ emitted.toList)
  | .assertFail => .error .assertionError

/-- The `while` loop of `main`, with explicit fuel; `ok none` means the fuel
ran out before the loop finished. -/
def mainLoop (n1 n2 : PyStr) (options : Options) :
    Nat → Conllu → Conllu → Stats → List PyStr → List Sentence →
    Except PyError (Option (Stats × List Sentence))
  | 0, _, _, _, _, _ => .ok none
  | fuel + 1, c1, c2, stats, seen, out =>
    match c1.current, c2.current with
    | some A, some B =>
      match alignStep n1 n2 options c1 c2 A B stats seen out with
      | .error e => .error e
      | .ok (c1, c2, stats, seen, out) =>
        mainLoop n1 n2 options fuel c1 c2 stats seen out
    | _, _ => .ok (some (stats, out))

/-- `main` on the contents of the two files (`os.path.basename` is elided:
`n1`, `n2` serve as both path and statistics name; the final statistics
printing is elided: the returned `Stats` is the full record of
increments). -/
def mainRun (n1 n2 : PyStr) (options : Options)
    (lines1 lines2 : List PyStr) (fuel : Nat) :
    Except PyError (Option (Stats × List Sentence)) :=
  match mkConllu n1 lines1 with
  | .error e => .error e
  | .ok c1 =>
    match mkConllu n2 lines2 with
    | .error e => .error e
    | .ok c2 => mainLoop n1 n2 options fuel c1 c2 [] [] []

/-- The offset bookkeeping invariant of a stream: the state's running offset
sits at the end of the current lookahead sentence's span. -/
def Conllu.offsetInv (c : Conllu) : Prop :=
  ∀ s, c.current = some s → c.st.offset = s.offset + s.char_length

/-- The `argparse` defaults: no `-d`, no `-l`. -/
def defaultOptions : Options := ⟨false, none⟩

/-! Concrete inputs used by witnesses and counterexamples. -/

/-- A sample path. -/
def fPath : PyStr := "a.conllu".data

/-- Another sample path. -/
def gPath : PyStr := "b.conllu".data

/-- A well-formed token line (10 fields, `form` = `a`). -/
def tokA : PyStr := "1\ta\t_\t_\t_\t_\t0\troot\t_\t_".data

/-- A well-formed token line whose `form` field is empty (10 fields): its
sentence contributes no non-whitespace characters. -/
def tokEmptyForm : PyStr := "1\t\t_\t_\t_\t_\t0\t_\t_\t_".data

/-- A token line with only 2 tab-separated fields. -/
def badLine : PyStr := "a\tb".data

/-- A file of two sentences both of whose forms are empty. -/
def c3lines : List PyStr := [tokEmptyForm, [], tokEmptyForm, []]

/-- A single-sentence file with no `# text = ` comment line. -/
def c4lines : List PyStr := ["# sent_id = 1".data, tokA, []]

/-- A file whose only content is a comment followed by a blank line. -/
def c10lines : List PyStr := ["# c".data, []]

/-- The `Word` parsed from `tokA`. -/
def wA : Word := wordOfFields (pySplit '\t' tokA)

/-- A sentence as parsed from `tokA` with a `# text` comment, at offset 0. -/
def sA : Sentence := ⟨["# text = a".data], [wA], fPath, 1, 0⟩

/-- A sentence with two one-character tokens: span `(0, 2)`. -/
def sAB : Sentence :=
  ⟨["# text = a b".data],
   [wordOfFields (pySplit '\t' tokA),
    wordOfFields (pySplit '\t' "2\tb\t_\t_\t_\t_\t1\tdep\t_\t_".data)],
   fPath, 1, 0⟩

/-- The `Word` of a one-character token `b`. -/
def wB : Word := wordOfFields (pySplit '\t' "1\tb\t_\t_\t_\t_\t0\troot\t_\t_".data)

/-- A one-token sentence at offset 1: span `(1, 2)`. -/
def sB1 : Sentence := ⟨["# text = b".data], [wB], gPath, 4, 1⟩

/-- A `Conllu` stream whose lookahead is `s` and whose input is spent. -/
def drainedConllu (path : PyStr) (s : Sentence) : Conllu :=
  ⟨⟨path, [], 3, 1, false⟩, some s⟩

/-- A well-formed token line with `form` = `b`. -/
def tokB : PyStr := "1\tb\t_\t_\t_\t_\t0\troot\t_\t_".data

/-- Options with the duplicate filter enabled. -/
def dupOptions : Options := ⟨true, none⟩

/-- Like `sA` but with a different `deprel` on its only word. -/
def sA2 : Sentence :=
  ⟨["# text = a".data], [{ wA with deprel := "x".data }], gPath, 1, 0⟩

/-- A sentence with a comment but no `# text = ` comment. -/
def sNoText : Sentence := ⟨["# sent_id = 1".data], [wA], fPath, 1, 0⟩

/-- `drainedConllu fPath _` after one `advance`. -/
def c1adv : Conllu := ⟨⟨fPath, [], 3, 1, true⟩, none⟩

/-- `drainedConllu gPath _` after one `advance`. -/
def c2adv : Conllu := ⟨⟨gPath, [], 3, 1, true⟩, none⟩

/-- A two-sentence input (`a` then `b`). -/
def c3wlines : List PyStr := [tokA, [], tokB, []]

/-- The first sentence of `c3wlines`. -/
def s3w1 : Sentence := ⟨[], [wA], fPath, 1, 0⟩

/-- The second sentence of `c3wlines`. -/
def s3w2 : Sentence := ⟨[], [wB], fPath, 3, 1⟩

/-- The stream opened on `c3wlines`. -/
def c3w : Conllu := ⟨⟨fPath, [tokB, []], 2, 1, false⟩, some s3w1⟩

/-- `c3w` after one `advance`. -/
def c3w' : Conllu := ⟨⟨fPath, [], 4, 2, false⟩, some s3w2⟩

/-! ## Helper lemmas -/

/-- `str.split` never returns an empty list of fields. -/
theorem pySplit_ne_nil (sep : Char) (s : List Char) : pySplit sep s ≠ [] := by
  cases s with
  | nil => simp [pySplit]
  | cons c cs =>
    unfold pySplit
    cases pySplit sep cs with
    | nil => simp
    | cons f fs => by_cases h : c = sep <;> simp [h]

/-- `sep.join(s.split(sep)) == s`: splitting and re-joining on the same
separator is the identity. -/
theorem pyJoin_pySplit (sep : Char) : ∀ s : List Char,
    pyJoin sep (pySplit sep s) = s
  | [] => rfl
  | c :: cs => by
    have ih := pyJoin_pySplit sep cs
    unfold pySplit
    cases hs : pySplit sep cs with
    | nil => exact absurd hs (pySplit_ne_nil sep cs)
    | cons f fs =>
      rw [hs] at ih
      by_cases hc : c = sep
      · subst hc
        simp only [if_pos rfl]
        cases fs with
        | nil =>
          simp [pyJoin] at ih ⊢
          exact ih
        | cons f2 fs2 =>
          simp [pyJoin] at ih ⊢
          exact ih
      · simp only [if_neg hc]
        cases fs with
        | nil =>
          simp [pyJoin] at ih ⊢
          exact ih
        | cons f2 fs2 =>
          simp [pyJoin] at ih ⊢
          rw [ih]

/-- Rebuilding the `Word` of a 10-field split and printing it with
`Word.__str__` restores the joined fields. -/
theorem wordStr_wordOfFields (fields : List PyStr) (h : fields.length = 10) :
    wordStr (wordOfFields fields) = pyJoin '\t' fields := by
  rcases fields with _ | ⟨a, fields⟩; · simp at h
  rcases fields with _ | ⟨b, fields⟩; · simp at h
  rcases fields with _ | ⟨c, fields⟩; · simp at h
  rcases fields with _ | ⟨d, fields⟩; · simp at h
  rcases fields with _ | ⟨e, fields⟩; · simp at h
  rcases fields with _ | ⟨f, fields⟩; · simp at h
  rcases fields with _ | ⟨g, fields⟩; · simp at h
  rcases fields with _ | ⟨h1, fields⟩; · simp at h
  rcases fields with _ | ⟨i, fields⟩; · simp at h
  rcases fields with _ | ⟨j, fields⟩; · simp at h
  rcases fields with _ | ⟨k, fields⟩
  · rfl
  · simp at h

/-- What a successful sentence production by the parser loop returns: the
sentence carries the entry offset and start line, the new offset advances by
its `char_length`, `finished` stays false, and the consumed region is a run
of non-blank lines closed by one blank line whose comment lines are exactly
the sentence's comments and whose token lines print back, via
`Word.__str__`, as themselves. -/
theorem getSentenceAux_ok_some (path : PyStr) (sl : Nat) :
    ∀ (lines : List PyStr) (n o : Nat) (comments : List PyStr)
      (words : List Word) (s : Sentence) (rest : List PyStr) (n' o' : Nat)
      (fin : Bool),
    getSentenceAux path sl lines n o comments words =
      .ok (some s, rest, n', o', fin) →
    s.source = path ∧ s.lineno = sl ∧ s.offset = o ∧
      o' = o + s.char_length ∧ fin = false ∧
      ∃ consumed bl, lines = consumed ++ bl :: rest ∧ isBlankLine bl = true ∧
        (∀ l ∈ consumed, isBlankLine l = false) ∧
        s.comments = comments ++ consumed.filter (fun l => isCommentLine l) ∧
        s.words.map wordStr =
          words.map wordStr ++ consumed.filter (fun l => isTokenLine l) := by
  intro lines n o comments words
  induction lines, n, o, comments, words using getSentenceAux.induct path sl with
  | case1 n o comments words =>
    intro s rest n' o' fin h
    simp [getSentenceAux] at h
  | case2 l rest0 n o comments words ln hw hwe e hfmt =>
    intro s rest n' o' fin h
    simp only [getSentenceAux] at h
    repeat' split at h
    all_goals simp_all
  | case3 l rest0 n o comments words ln hw hwe msg hfmt =>
    intro s rest n' o' fin h
    simp only [getSentenceAux] at h
    repeat' split at h
    all_goals simp_all
  | case4 l rest0 n o comments words hw hnw =>
    intro s rest n' o' fin h
    have hw' : ¬ words = [] := by simpa using hnw
    simp [getSentenceAux, hw, hw'] at h
    obtain ⟨hs, hrest, hn, ho, hfin⟩ := h
    subst_vars
    refine ⟨rfl, rfl, rfl, rfl, rfl, [], l, by simp, hw, by simp, by simp,
      by simp⟩
  | case5 l rest0 n o comments words ln hb hc ih =>
    intro s rest n' o' fin h
    simp only [getSentenceAux, hb, hc, if_true, if_false,
      Bool.false_eq_true] at h
    obtain ⟨h1, h2, h3, h4, h5, consumed, bl, hlines, hbl, hnb, hcom, hwrd⟩ :=
      ih _ _ _ _ _ h
    refine ⟨h1, h2, h3, h4, h5, l :: consumed, bl, by simp [hlines], hbl,
      ?_, ?_, ?_⟩
    · intro x hx
      rcases List.mem_cons.mp hx with hx | hx
      · subst hx
        simpa using hb
      · exact hnb x hx
    · simp only [List.filter_cons, hc, if_true, hcom]
      simp
    · have ht : isTokenLine l = false := by
        simp [isTokenLine, hc]
      simp only [List.filter_cons, ht, hwrd]
      simp
  | case6 l rest0 n o comments words ln hb hc flds hlen e hfmt =>
    intro s rest n' o' fin h
    simp only [getSentenceAux] at h
    repeat' split at h
    all_goals simp_all
  | case7 l rest0 n o comments words ln hb hc flds hlen msg hfmt =>
    intro s rest n' o' fin h
    simp only [getSentenceAux] at h
    repeat' split at h
    all_goals simp_all
  | case8 l rest0 n o comments words ln hb hc flds hlen ih =>
    intro s rest n' o' fin h
    have hlen10 : (pySplit '\t' l).length = 10 := by
      have h10 : ¬ (pySplit '\t' l).length ≠ 10 := hlen
      omega
    simp only [getSentenceAux, hb, hc, if_true, if_false,
      Bool.false_eq_true] at h
    rw [if_neg (by omega : ¬ (pySplit '\t' l).length ≠ 10)] at h
    obtain ⟨h1, h2, h3, h4, h5, consumed, bl, hlines, hbl, hnb, hcom, hwrd⟩ :=
      ih _ _ _ _ _ h
    have hws : wordStr (wordOfFields (pySplit '\t' l)) = l := by
      rw [wordStr_wordOfFields _ hlen10, pyJoin_pySplit]
    refine ⟨h1, h2, h3, h4, h5, l :: consumed, bl, by simp [hlines], hbl,
      ?_, ?_, ?_⟩
    · intro x hx
      rcases List.mem_cons.mp hx with hx | hx
      · subst hx
        simpa using hb
      · exact hnb x hx
    · have hcm : isCommentLine l = false := by
        simpa using hc
      simp only [List.filter_cons, hcm, hcom]
      simp
    · have ht : isTokenLine l = true := by
        simp [isTokenLine, hb, hc]
      simp only [List.filter_cons, ht, hwrd]
      simp [hws]

/-- The empty-sentence template (2 placeholders) formatted with its 2
arguments succeeds. -/
theorem pyFormat_emptySentence (a b : PyStr) :
    pyFormat emptySentenceTemplate [a, b] =
      .ok ("empty sentence on line ".data ++ (a ++ (" in ".data ++ (b ++ [])))) :=
  rfl

/-- The wrong-field-count template has 5 placeholders but is formatted with
only 4 arguments: `str.format` raises `IndexError` whatever the arguments
are, so the intended `FormatError` is never constructed. -/
theorem pyFormat_badFields (a b c d : PyStr) :
    pyFormat badFieldsTemplate [a, b, c, d] = .error .indexError :=
  rfl

/-- The missing-`# text` template formatted with its 2 arguments. -/
theorem pyFormat_noText (a b : PyStr) :
    pyFormat "no \"# text\" line: \x7b\x7d line \x7b\x7d".data [a, b] =
      .ok ("no \"# text\" line: ".data ++ (a ++ (" line ".data ++ (b ++ [])))) :=
  rfl

/-- The duplicated-`# text` template formatted with its 2 arguments. -/
theorem pyFormat_multiText (a b : PyStr) :
    pyFormat "multiple \"# text\" lines: \x7b\x7d line \x7b\x7d".data [a, b] =
      .ok ("multiple \"# text\" lines: ".data ++
        (a ++ (" line ".data ++ (b ++ [])))) :=
  rfl

/-- The only `FormatError` the parser loop can raise is the empty-sentence
one (the wrong-field-count branch dies in `IndexError` first), and it occurs
only when a blank line is read while the `words` accumulator is empty, i.e.
when the pending lines up to the next blank line are all comments. -/
theorem getSentenceAux_formatError (path : PyStr) (sl : Nat) :
    ∀ (lines : List PyStr) (n o : Nat) (comments : List PyStr)
      (words : List Word) (m : PyStr),
    getSentenceAux path sl lines n o comments words = .error (.formatError m) →
    words = [] ∧ ∃ pre bl rest, lines = pre ++ bl :: rest ∧
      (∀ l ∈ pre, isCommentLine l = true) ∧ isBlankLine bl = true := by
  intro lines n o comments words
  induction lines, n, o, comments, words using getSentenceAux.induct path sl with
  | case1 n o comments words =>
    intro m h
    simp [getSentenceAux] at h
  | case2 l rest0 n o comments words ln hw hwe e hfmt =>
    intro m h
    rw [pyFormat_emptySentence] at hfmt
    exact Except.noConfusion hfmt
  | case3 l rest0 n o comments words ln hw hwe msg hfmt =>
    intro m h
    refine ⟨by simpa using hwe, [], l, rest0, by simp, by simp, hw⟩
  | case4 l rest0 n o comments words hw hnw =>
    intro m h
    have hw' : ¬ words = [] := by simpa using hnw
    simp [getSentenceAux, hw, hw'] at h
  | case5 l rest0 n o comments words ln hb hc ih =>
    intro m h
    simp only [getSentenceAux, hb, hc, if_true, if_false,
      Bool.false_eq_true] at h
    obtain ⟨hw0, pre, bl, rest, hlines, hpre, hbl⟩ := ih _ h
    refine ⟨hw0, l :: pre, bl, rest, by simp [hlines], ?_, hbl⟩
    intro x hx
    rcases List.mem_cons.mp hx with hx | hx
    · subst hx
      exact hc
    · exact hpre x hx
  | case6 l rest0 n o comments words ln hb hc flds hlen e hfmt =>
    intro m h
    have hfmt' : pyFormat badFieldsTemplate
        [natToPyStr (n + 1), path, natToPyStr (pySplit '\t' l).length, l] =
        .error e := hfmt
    rw [pyFormat_badFields] at hfmt'
    have he : e = PyError.indexError := by
      exact (Except.error.injEq _ _ ▸ hfmt').symm ▸ rfl
    simp only [getSentenceAux] at h
    repeat' split at h
    all_goals simp_all
  | case7 l rest0 n o comments words ln hb hc flds hlen msg hfmt =>
    intro m h
    have hfmt' : pyFormat badFieldsTemplate
        [natToPyStr (n + 1), path, natToPyStr (pySplit '\t' l).length, l] =
        .ok msg := hfmt
    rw [pyFormat_badFields] at hfmt'
    exact Except.noConfusion hfmt'
  | case8 l rest0 n o comments words ln hb hc flds hlen ih =>
    intro m h
    have hlen10 : (pySplit '\t' l).length = 10 := by
      have h10 : ¬ (pySplit '\t' l).length ≠ 10 := hlen
      omega
    simp only [getSentenceAux, hb, hc, if_true, if_false,
      Bool.false_eq_true] at h
    rw [if_neg (by omega : ¬ (pySplit '\t' l).length ≠ 10)] at h
    obtain ⟨hw0, _⟩ := ih _ h
    simp at hw0

/-- A sentence handed out by `_get_sentence` starts at the state's running
offset, and the state's offset advances to the end of its span. -/
theorem get_sentence_some (st : ConlluState) (s : Sentence)
    (st' : ConlluState) (h : st.get_sentence = .ok (some s, st')) :
    s.offset = st.offset ∧ st'.offset = s.offset + s.char_length := by
  by_cases hf : st.finished
  · rw [ConlluState.get_sentence, if_pos hf] at h
    simp at h
  · cases haux : getSentenceAux st.path (st.lineno + 1) st.lines st.lineno
        st.offset [] [] with
    | error e =>
      rw [ConlluState.get_sentence, if_neg hf, haux] at h
      exact Except.noConfusion h
    | ok res =>
      obtain ⟨os, lines, lineno, offset, fin⟩ := res
      rw [ConlluState.get_sentence, if_neg hf, haux] at h
      simp only [Except.ok.injEq, Prod.mk.injEq] at h
      obtain ⟨hos, hst'⟩ := h
      subst hos
      obtain ⟨_, _, hoff, hadv, _, _⟩ :=
        getSentenceAux_ok_some st.path (st.lineno + 1) st.lines st.lineno
          st.offset [] [] s lines lineno offset fin haux
      subst hst'
      refine ⟨hoff, ?_⟩
      show offset = s.offset + s.char_length
      rw [hoff]
      exact hadv

/-! ## Claims -/

/-- C1: the claim says a token line with a field count other than 10 fails
with a `FormatError` naming path, line number and field count.  In fact the
error message's `format` call has 5 placeholders but only 4 arguments, so
the parser fails with an `IndexError` instead, before any `FormatError` is
constructed: reading such a line always produces `PyError.indexError`. -/
theorem claim1_bad_field_count_raises_index_error (path : PyStr) (sl : Nat)
    (l : PyStr) (rest : List PyStr) (n o : Nat) (comments : List PyStr)
    (words : List Word) (hb : isBlankLine l = false)
    (hc : isCommentLine l = false)
    (hlen : (pySplit '\t' l).length ≠ 10) :
    getSentenceAux path sl (l :: rest) n o comments words =
      .error .indexError := by
  simp only [getSentenceAux, hb, hc, Bool.false_eq_true, if_false]
  rw [if_pos hlen, pyFormat_badFields]

/-- C1 witness: the 2-field line `a<TAB>b` makes the parser raise
`IndexError`. -/
theorem claim1_witness :
    isBlankLine badLine = false ∧ isCommentLine badLine = false ∧
      (pySplit '\t' badLine).length ≠ 10 ∧
      getSentenceAux fPath 1 [badLine] 0 0 [] [] = .error .indexError :=
  ⟨by decide, by decide, by decide,
   claim1_bad_field_count_raises_index_error fPath 1 badLine [] 0 0 [] []
     (by decide) (by decide) (by decide)⟩

/-- C9: the final `else` of the alignment loop can never see unequal spans:
the branch selection never reaches the assertion-failure case, and the final
branch is reached exactly when the two spans agree on both ends. -/
theorem claim9_assert_never_fails (a0 a1 b0 b1 : Nat) :
    (alignBranch a0 a1 b0 b1 == AlignBranch.assertFail) = false ∧
      (alignBranch a0 a1 b0 b1 = AlignBranch.exactMatch ↔
        (a0 = b0 ∧ a1 = b1)) := by
  unfold alignBranch
  constructor
  · split_ifs with h1 h2 h3 h4
    all_goals try simp_all
    all_goals omega
  · split_ifs with h1 h2 h3 h4
    all_goals try simp_all
    all_goals omega

/-- C9 witness: equal spans `(0,1)`/`(0,1)` select the exact-match branch. -/
theorem claim9_witness :
    (alignBranch 0 1 0 1 == AlignBranch.assertFail) = false ∧
      (alignBranch 0 1 0 1 = AlignBranch.exactMatch ↔ (0 = 0 ∧ 1 = 1)) :=
  claim9_assert_never_fails 0 1 0 1

/-- C2: with spans `(a0,a1)` and `(b0,b1)`, if `a0 != b0` and `a1 == b1` the
step counts one span mismatch against each source and advances both streams;
this branch is decided first, and only when it (and, in turn, each earlier
branch) fails does the "stream 1 behind" (resp. "stream 2 behind") branch
fire, which counts a mismatch against only the lagging source and advances
only that stream. -/
theorem claim2_equal_end_tie_break (n1 n2 : PyStr) (options : Options)
    (c1 c2 : Conllu) (A B : Sentence) (stats : Stats) (seen : List PyStr)
    (out : List Sentence) (a0 a1 b0 b1 : Nat)
    (hA : A.span = (a0, a1)) (hB : B.span = (b0, b1))
    (s1 : Option Sentence) (c1' : Conllu) (h1 : c1.advance = .ok (s1, c1'))
    (s2 : Option Sentence) (c2' : Conllu)
    (h2 : c2.advance = .ok (s2, c2')) :
    (a0 ≠ b0 ∧ a1 = b1 →
      alignBranch a0 a1 b0 b1 = .advanceBoth ∧
      alignStep n1 n2 options c1 c2 A B stats seen out =
        .ok (c1', c2', stats ++ [spanMismatchLabel n1, spanMismatchLabel n2],
          seen, out)) ∧
    (¬ (a0 ≠ b0 ∧ a1 = b1) → (a0 < b0 ∨ a1 < b1) →
      alignStep n1 n2 options c1 c2 A B stats seen out =
        .ok (c1', c2, stats ++ [spanMismatchLabel n1], seen, out)) ∧
    (¬ (a0 ≠ b0 ∧ a1 = b1) → ¬ (a0 < b0 ∨ a1 < b1) → (b0 < a0 ∨ b1 < a1) →
      alignStep n1 n2 options c1 c2 A B stats seen out =
        .ok (c1, c2', stats ++ [spanMismatchLabel n2], seen, out)) := by
  refine ⟨?_, ?_, ?_⟩
  · intro hcond
    have hbr : alignBranch a0 a1 b0 b1 = .advanceBoth := by
      unfold alignBranch
      rw [if_pos hcond]
    refine ⟨hbr, ?_⟩
    simp only [alignStep, hA, hB, hbr, h1, h2]
  · intro hcond hlt
    have hbr : alignBranch a0 a1 b0 b1 = .advance1 := by
      unfold alignBranch
      rw [if_neg hcond, if_pos hlt]
    simp only [alignStep, hA, hB, hbr, h1]
  · intro hcond hlt hgt
    have hbr : alignBranch a0 a1 b0 b1 = .advance2 := by
      unfold alignBranch
      rw [if_neg hcond, if_neg hlt, if_pos hgt]
    simp only [alignStep, hA, hB, hbr, h2]

/-- C2 witness: spans `(0,2)` vs `(1,2)` (different starts, same end) make
one step count a mismatch against both sources and advance both streams. -/
theorem claim2_witness :
    alignBranch 0 2 1 2 = .advanceBoth ∧
      alignStep fPath gPath defaultOptions (drainedConllu fPath sAB)
        (drainedConllu gPath sB1) sAB sB1 [] [] [] =
        .ok (c1adv, c2adv,
          [spanMismatchLabel fPath, spanMismatchLabel gPath], [], []) :=
  (claim2_equal_end_tie_break fPath gPath defaultOptions
      (drainedConllu fPath sAB) (drainedConllu gPath sB1) sAB sB1 [] [] []
      0 2 1 2 (by decide) (by decide) (some sAB) c1adv rfl
      (some sB1) c2adv rfl).1 (by decide)

/-- C5: `advance` returns the previously computed lookahead and stores the
next parse as the new lookahead; once the input is exhausted (`finished`),
`advance` yields `none` and leaves the stream in a state that yields `none`
on every subsequent call; and a trailing run of lines with no terminating
blank line is never returned as a sentence. -/
theorem claim5_lookahead_and_exhaustion (c : Conllu) :
    (∀ nxt st', c.st.get_sentence = .ok (nxt, st') →
      c.advance = .ok (c.current, ⟨st', nxt⟩)) ∧
    (c.st.finished = true →
      c.advance = .ok (c.current, ⟨c.st, none⟩) ∧
      Conllu.advance ⟨c.st, none⟩ = .ok (none, ⟨c.st, none⟩)) ∧
    (∀ lines, (∀ l ∈ lines, isBlankLine l = false) →
      ∀ sl n o comments words s rest n' o' fin,
        getSentenceAux c.st.path sl lines n o comments words ≠
          .ok (some s, rest, n', o', fin)) := by
  refine ⟨?_, ?_, ?_⟩
  · intro nxt st' h
    rw [Conllu.advance, h]
  · intro hf
    constructor
    · rw [Conllu.advance, ConlluState.get_sentence, if_pos hf]
    · rw [Conllu.advance]
      show (match ConlluState.get_sentence c.st with
        | Except.error e => Except.error e
        | Except.ok (nxt, st) => Except.ok (none, (⟨st, nxt⟩ : Conllu))) =
        Except.ok (none, (⟨c.st, none⟩ : Conllu))
      rw [ConlluState.get_sentence, if_pos hf]
  · intro lines hnb sl n o comments words s rest n' o' fin h
    obtain ⟨_, _, _, _, _, consumed, bl, hlines, hbl, _, _, _⟩ :=
      getSentenceAux_ok_some c.st.path sl lines n o comments words s rest
        n' o' fin h
    have hmem : bl ∈ lines := by
      rw [hlines]
      simp
    rw [hnb bl hmem] at hbl
    exact Bool.noConfusion hbl

/-- C5 witness: a drained stream hands out its lookahead and then `none`
forever, and the unterminated single-token input `[tokA]` yields no
sentence. -/
theorem claim5_witness :
    (drainedConllu fPath sA).advance =
      .ok (some sA, ⟨⟨fPath, [], 3, 1, true⟩, none⟩) ∧
    Conllu.advance ⟨⟨fPath, [], 3, 1, true⟩, none⟩ =
      .ok (none, ⟨⟨fPath, [], 3, 1, true⟩, none⟩) ∧
    getSentenceAux fPath 1 [tokA] 0 0 [] [] ≠
      .ok (some sA, [], 1, 1, false) :=
  ⟨(claim5_lookahead_and_exhaustion (drainedConllu fPath sA)).1 none
      ⟨fPath, [], 3, 1, true⟩ rfl,
   ((claim5_lookahead_and_exhaustion
      ⟨⟨fPath, [], 3, 1, true⟩, none⟩).2.1 rfl).2,
   (claim5_lookahead_and_exhaustion
      ⟨⟨fPath, [], 3, 1, true⟩, none⟩).2.2 [tokA] (by decide) 1 0 0 [] []
      sA [] 1 1 false⟩

/-- C10: a completely empty input is not a format error: the stream is
built with `current = none` and `finished = true`, the alignment loop then
runs zero iterations; and the empty-sentence `FormatError` arises only when
a blank line is read with no token line accumulated since the previous
boundary (the pending lines are all comments). -/
theorem claim10_empty_input (path : PyStr) :
    mkConllu path [] = .ok ⟨⟨path, [], 0, 0, true⟩, none⟩ ∧
    (∀ n1 n2 options c2 stats seen out fuel,
      mainLoop n1 n2 options (fuel + 1) ⟨⟨path, [], 0, 0, true⟩, none⟩ c2
        stats seen out = .ok (some (stats, out))) ∧
    (∀ sl lines n o comments words m,
      getSentenceAux path sl lines n o comments words =
        .error (.formatError m) →
      words = [] ∧ ∃ pre bl rest, lines = pre ++ bl :: rest ∧
        (∀ l ∈ pre, isCommentLine l = true) ∧ isBlankLine bl = true) := by
  refine ⟨rfl, ?_, ?_⟩
  · intro n1 n2 options c2 stats seen out fuel
    cases h : c2.current <;> simp [mainLoop, h]
  · intro sl lines n o comments words m h
    exact getSentenceAux_formatError path sl lines n o comments words m h

/-- C10 witness: zero-line streams align in zero iterations, while the
comment-only input `c10lines` does hit the empty-sentence error, whose
characterization the theorem instantiates. -/
theorem claim10_witness :
    mkConllu fPath [] = .ok ⟨⟨fPath, [], 0, 0, true⟩, none⟩ ∧
    mainLoop fPath gPath defaultOptions 1 ⟨⟨fPath, [], 0, 0, true⟩, none⟩
      c2adv [] [] [] = .ok (some ([], [])) ∧
    (([] : List Word) = [] ∧ ∃ pre bl rest,
      c10lines = pre ++ bl :: rest ∧
      (∀ l ∈ pre, isCommentLine l = true) ∧ isBlankLine bl = true) :=
  ⟨(claim10_empty_input fPath).1,
   (claim10_empty_input fPath).2.1 fPath gPath defaultOptions c2adv [] [] [] 0,
   (claim10_empty_input fPath).2.2 1 c10lines 0 0 [] []
     "empty sentence on line 2 in a.conllu".data rfl⟩

/-- C3 (amended): within one stream, each sentence starts exactly where the
previous one ended (`offset` of the next = `offset + char_length` of the
previous, so spans are adjacent and non-overlapping), and spans are
*strictly* increasing whenever the earlier sentence has a positive
`char_length`; a sentence whose forms hold no non-whitespace character
(which the parser accepts) makes the strict increase fail. -/
theorem claim3_spans_adjacent (c : Conllu) :
    (∀ path lines, mkConllu path lines = .ok c → c.offsetInv) ∧
    (∀ s a c', c.offsetInv → c.current = some s → c.advance = .ok (a, c') →
      c'.offsetInv ∧
      ∀ s', c'.current = some s' →
        s'.offset = s.offset + s.char_length ∧
        s'.span.1 = s.span.2 ∧
        (0 < s.char_length → s.span.1 < s'.span.1)) := by
  constructor
  · intro path lines hmk s hcur
    rw [mkConllu] at hmk
    cases hgs : ConlluState.get_sentence ⟨path, lines, 0, 0, false⟩ with
    | error e =>
      rw [hgs] at hmk
      exact Except.noConfusion hmk
    | ok res =>
      obtain ⟨os, st⟩ := res
      rw [hgs] at hmk
      simp only [Except.ok.injEq] at hmk
      subst hmk
      have hos : os = some s := hcur
      subst hos
      exact (get_sentence_some _ s st hgs).2
  · intro s a c' hinv hcur hadv
    rw [Conllu.advance] at hadv
    cases hgs : ConlluState.get_sentence c.st with
    | error e =>
      rw [hgs] at hadv
      exact Except.noConfusion hadv
    | ok res =>
      obtain ⟨nxt, st'⟩ := res
      rw [hgs] at hadv
      simp only [Except.ok.injEq, Prod.mk.injEq] at hadv
      obtain ⟨ha, hc'⟩ := hadv
      subst hc'
      constructor
      · intro t hcur'
        simp only at hcur'
        subst hcur'
        exact (get_sentence_some c.st t st' hgs).2
      · intro s' hcur'
        simp only at hcur'
        subst hcur'
        obtain ⟨hoff, _⟩ := get_sentence_some c.st s' st' hgs
        have hend := hinv s hcur
        refine ⟨by rw [hoff, hend], by simp [Sentence.span, hoff, hend], ?_⟩
        intro hpos
        simp only [Sentence.span]
        rw [hoff, hend]
        omega

/-- C3 witness: on the two-sentence input `a` / `b` the second sentence
starts at 1 = 0 + 1, spans touch, and the strict increase holds. -/
theorem claim3_witness :
    s3w2.offset = s3w1.offset + s3w1.char_length ∧
      s3w2.span.1 = s3w1.span.2 ∧
      (0 < s3w1.char_length → s3w1.span.1 < s3w2.span.1) :=
  (((claim3_spans_adjacent c3w).2 s3w1 (some s3w1) c3w'
      ((claim3_spans_adjacent c3w).1 fPath c3wlines rfl) rfl rfl).2 s3w2 rfl)

/-- C3 counterexample: the claim's strict span increase fails on a stream of
sentences whose `form` fields are empty: two consecutive sentences both get
span `(0,0)`. -/
theorem claim3_counterexample :
    ¬ (∀ (c c' : Conllu) (s s' : Sentence) (a : Option Sentence),
        mkConllu fPath c3lines = .ok c → c.current = some s →
        c.advance = .ok (a, c') → c'.current = some s' →
        s.span.1 < s'.span.1) := by
  intro h
  exact absurd (h _ _ _ _ _ rfl rfl rfl rfl) (by decide)

/-- C8: a successfully parsed sentence prints back, via `str(sentence)`, as
exactly the comment lines it consumed followed by the token lines it
consumed, newline-joined with a final newline (the blank separator line is
the only consumed line not reproduced). -/
theorem claim8_roundtrip (st : ConlluState) (s : Sentence)
    (st' : ConlluState) (h : st.get_sentence = .ok (some s, st')) :
    ∃ consumed bl, st.lines = consumed ++ bl :: st'.lines ∧
      isBlankLine bl = true ∧ (∀ l ∈ consumed, isBlankLine l = false) ∧
      s.comments = consumed.filter (fun l => isCommentLine l) ∧
      s.words.map wordStr = consumed.filter (fun l => isTokenLine l) ∧
      sentenceStr s =
        pyJoin '\n' (consumed.filter (fun l => isCommentLine l) ++
          consumed.filter (fun l => isTokenLine l) ++ [[]]) := by
  by_cases hf : st.finished
  · rw [ConlluState.get_sentence, if_pos hf] at h
    simp at h
  · cases haux : getSentenceAux st.path (st.lineno + 1) st.lines st.lineno
        st.offset [] [] with
    | error e =>
      rw [ConlluState.get_sentence, if_neg hf, haux] at h
      exact Except.noConfusion h
    | ok res =>
      obtain ⟨os, lines, lineno, offset, fin⟩ := res
      rw [ConlluState.get_sentence, if_neg hf, haux] at h
      simp only [Except.ok.injEq, Prod.mk.injEq] at h
      obtain ⟨hos, hst'⟩ := h
      subst hos
      obtain ⟨_, _, _, _, _, consumed, bl, hlines, hbl, hnb, hcom, hwrd⟩ :=
        getSentenceAux_ok_some st.path (st.lineno + 1) st.lines st.lineno
          st.offset [] [] s lines lineno offset fin haux
      simp only [List.nil_append, List.map_nil] at hcom hwrd
      refine ⟨consumed, bl, ?_, hbl, hnb, hcom, hwrd, ?_⟩
      · rw [← hst']
        exact hlines
      · rw [sentenceStr, hcom, hwrd]

/-- C8 witness: the sentence parsed from `# text = a` + `tokA` + blank
prints back as those two lines joined by newlines plus a final newline. -/
theorem claim8_witness :
    ∃ consumed bl,
      (["# text = a".data, tokA, []] : List PyStr) = consumed ++ bl :: [] ∧
      isBlankLine bl = true ∧ (∀ l ∈ consumed, isBlankLine l = false) ∧
      sA.comments = consumed.filter (fun l => isCommentLine l) ∧
      sA.words.map wordStr = consumed.filter (fun l => isTokenLine l) ∧
      sentenceStr sA =
        pyJoin '\n' (consumed.filter (fun l => isCommentLine l) ++
          consumed.filter (fun l => isTokenLine l) ++ [[]]) :=
  claim8_roundtrip ⟨fPath, ["# text = a".data, tokA, []], 0, 0, false⟩ sA
    ⟨fPath, [], 3, 1, false⟩ rfl

/-- C6: a span-matched pair with identical `form` sequences but different
`(head, deprel)` sequences is rejected with exactly one "head+deprel
mismatch" increment, leaving the seen-set untouched, emitting nothing, and
adding no length/duplicate/accept statistics. -/
theorem claim6_deps_mismatch_rejects (s1 s2 : Sentence) (options : Options)
    (stats : Stats) (seen : List PyStr)
    (hf : s1.words.map (fun w => w.form) = s2.words.map (fun w => w.form))
    (hd : s1.words.map (fun w => (w.head, w.deprel)) ≠
      s2.words.map (fun w => (w.head, w.deprel))) :
    process_match s1 s2 options stats seen =
      .ok (false,
        stats ++ ["tokenization match".data, "head+deprel mismatch".data],
        seen, none) ∧
    statCount (stats ++ ["tokenization match".data,
        "head+deprel mismatch".data]) "head+deprel mismatch".data =
      statCount stats "head+deprel mismatch".data + 1 ∧
    (∀ lab, lab = "under minimum length".data ∨ lab = "duplicate".data ∨
      lab = "all OK".data →
      statCount (stats ++ ["tokenization match".data,
        "head+deprel mismatch".data]) lab = statCount stats lab) := by
  refine ⟨?_, ?_, ?_⟩
  · unfold process_match
    rw [if_neg (fun hh => hh hf), if_pos hd]
    simp
  · simp [statCount, List.count_append]
  · intro lab hlab
    rcases hlab with hlab | hlab | hlab <;> subst hlab <;>
      simp [statCount, List.count_append]

/-- C6 witness: `sA` against `sA2` (same form, different deprel) is
rejected with one "head+deprel mismatch". -/
theorem claim6_witness :
    process_match sA sA2 defaultOptions [] [] =
      .ok (false,
        ["tokenization match".data, "head+deprel mismatch".data],
        [], none) ∧
    statCount ["tokenization match".data, "head+deprel mismatch".data]
        "head+deprel mismatch".data =
      statCount [] "head+deprel mismatch".data + 1 :=
  let h := claim6_deps_mismatch_rejects sA sA2 defaultOptions [] []
    (by decide) (by decide)
  ⟨h.1, h.2.1⟩

/-- C7: with the duplicate filter enabled, the seen-set is consulted and
extended through `process_match`: an otherwise-accepted pair whose first
sentence's text is new is accepted and its text recorded, and a later
otherwise-accepted pair with the same text (against the extended set) is
rejected with exactly one "duplicate" increment. -/
theorem claim7_duplicate_filter (s1 s2 s1' s2' : Sentence)
    (options : Options) (stats stats' : Stats) (seen : List PyStr)
    (t : PyStr) (hdup : options.no_duplicates = true)
    (hf : s1.words.map (fun w => w.form) = s2.words.map (fun w => w.form))
    (hd : s1.words.map (fun w => (w.head, w.deprel)) =
      s2.words.map (fun w => (w.head, w.deprel)))
    (hl : minLengthFails options
      (s1.words.map (fun w => w.form)).length = false)
    (ht : s1.text = .ok t) (hnew : t ∉ seen)
    (hf' : s1'.words.map (fun w => w.form) =
      s2'.words.map (fun w => w.form))
    (hd' : s1'.words.map (fun w => (w.head, w.deprel)) =
      s2'.words.map (fun w => (w.head, w.deprel)))
    (hl' : minLengthFails options
      (s1'.words.map (fun w => w.form)).length = false)
    (ht' : s1'.text = .ok t) :
    process_match s1 s2 options stats seen =
      .ok (true, stats ++ ["tokenization match".data,
        "head+deprel match".data, "all OK".data], seen ++ [t], some s1) ∧
    process_match s1' s2' options stats' (seen ++ [t]) =
      .ok (false, stats' ++ ["tokenization match".data,
        "head+deprel match".data, "duplicate".data], seen ++ [t], none) ∧
    statCount (stats' ++ ["tokenization match".data,
        "head+deprel match".data, "duplicate".data]) "duplicate".data =
      statCount stats' "duplicate".data + 1 := by
  refine ⟨?_, ?_, ?_⟩
  · unfold process_match
    rw [if_neg (fun hh => hh hf), if_neg (fun hh => hh hd)]
    simp only [hl, Bool.false_eq_true, if_false, hdup, if_true, ht]
    rw [if_neg hnew]
    simp
  · unfold process_match
    rw [if_neg (fun hh => hh hf'), if_neg (fun hh => hh hd')]
    simp only [hl', Bool.false_eq_true, if_false, hdup, if_true, ht']
    rw [if_pos (by simp : t ∈ seen ++ [t])]
    simp
  · simp [statCount, List.count_append]

/-- C7 witness: the same fully-matching pair twice with the same `# text`
value: accepted then rejected as a duplicate. -/
theorem claim7_witness :
    process_match sA sA dupOptions [] [] =
      .ok (true, ["tokenization match".data, "head+deprel match".data,
        "all OK".data], ["a".data], some sA) ∧
    process_match sA sA dupOptions [] ["a".data] =
      .ok (false, ["tokenization match".data, "head+deprel match".data,
        "duplicate".data], ["a".data], none) :=
  let h := claim7_duplicate_filter sA sA sA sA dupOptions [] [] [] "a".data
    rfl rfl rfl (by decide) rfl (by simp) rfl rfl (by decide) rfl
  ⟨h.1, h.2.1⟩

/-- C4 (amended): `process_match` — the only place `Sentence.text` is
evaluated — raises an error *iff* the duplicate filter is enabled, the pair
passed the tokenization, structure and length checks, and sentence 1's own
`# text` lookup fails; so with the filter off, or for a pair rejected by an
earlier check, or when only sentence 2's comments are malformed, no error
is raised.  A missing (resp. duplicated) `# text = ` comment makes that
lookup fail with an uncaught `ValueError` — not a `FormatError` — whose
message does name the source and line number. -/
theorem claim4_text_error_scope (s1 s2 : Sentence) (options : Options)
    (stats : Stats) (seen : List PyStr) :
    (∀ e, process_match s1 s2 options stats seen = .error e ↔
      (options.no_duplicates = true ∧
       s1.words.map (fun w => w.form) = s2.words.map (fun w => w.form) ∧
       s1.words.map (fun w => (w.head, w.deprel)) =
         s2.words.map (fun w => (w.head, w.deprel)) ∧
       minLengthFails options
         (s1.words.map (fun w => w.form)).length = false ∧
       s1.text = .error e)) ∧
    (s1.comments.filter (fun c => pyStartsWith c textMarker) = [] →
      s1.text = .error (.valueError ("no \"# text\" line: ".data ++
        (s1.source ++ (" line ".data ++ (natToPyStr s1.lineno ++ [])))))) ∧
    (∀ t1 t2 ts,
      s1.comments.filter (fun c => pyStartsWith c textMarker) =
        t1 :: t2 :: ts →
      s1.text = .error (.valueError ("multiple \"# text\" lines: ".data ++
        (s1.source ++ (" line ".data ++ (natToPyStr s1.lineno ++ [])))))) := by
  refine ⟨?_, ?_, ?_⟩
  · intro e
    constructor
    · intro h
      unfold process_match at h
      by_cases hf : s1.words.map (fun w => w.form) =
          s2.words.map (fun w => w.form)
      · rw [if_neg (fun hh => hh hf)] at h
        by_cases hd : s1.words.map (fun w => (w.head, w.deprel)) =
            s2.words.map (fun w => (w.head, w.deprel))
        · rw [if_neg (fun hh => hh hd)] at h
          cases hlen : minLengthFails options
              (s1.words.map (fun w => w.form)).length with
          | true =>
            rw [if_pos (by rw [hlen])] at h
            exact Except.noConfusion h
          | false =>
            rw [if_neg (by rw [hlen]; exact Bool.false_ne_true)] at h
            cases hnd : options.no_duplicates with
            | false =>
              rw [if_neg (by rw [hnd]; exact Bool.false_ne_true)] at h
              exact Except.noConfusion h
            | true =>
              rw [if_pos (by rw [hnd])] at h
              cases htext : s1.text with
              | error e1 =>
                simp only [htext] at h
                have he : e1 = e := by
                  injection h
                subst he
                exact ⟨rfl, hf, hd, rfl, rfl⟩
              | ok t =>
                simp only [htext] at h
                by_cases hmem : t ∈ seen
                · rw [if_pos hmem] at h
                  exact Except.noConfusion h
                · rw [if_neg hmem] at h
                  exact Except.noConfusion h
        · rw [if_pos hd] at h
          exact Except.noConfusion h
      · rw [if_pos hf] at h
        exact Except.noConfusion h
    · intro ⟨hnd, hf, hd, hlen, htext⟩
      unfold process_match
      rw [if_neg (fun hh => hh hf), if_neg (fun hh => hh hd)]
      simp only [hlen, Bool.false_eq_true, if_false, hnd, if_true, htext]
  · intro hfil
    unfold Sentence.text
    rw [hfil, pyFormat_noText]
  · intro t1 t2 ts hfil
    unfold Sentence.text
    rw [hfil, pyFormat_multiText]

/-- C4 witness: the no-`# text` sentence `sNoText` makes its own `text`
lookup fail with the `ValueError` naming `a.conllu` line 1; with `-d` the
fully-matching pair on it dies with exactly that error; without `-d` the
same pair can produce no error at all. -/
theorem claim4_witness :
    sNoText.text =
      .error (.valueError "no \"# text\" line: a.conllu line 1".data) ∧
    process_match sNoText sNoText dupOptions [] [] =
      .error (.valueError "no \"# text\" line: a.conllu line 1".data) ∧
    ∀ e, process_match sNoText sNoText defaultOptions [] [] ≠ .error e :=
  have ht : sNoText.text =
      .error (.valueError "no \"# text\" line: a.conllu line 1".data) :=
    (claim4_text_error_scope sNoText sNoText dupOptions [] []).2.1 (by decide)
  ⟨ht,
   ((claim4_text_error_scope sNoText sNoText dupOptions [] []).1 _).mpr
     ⟨rfl, rfl, rfl, by decide, ht⟩,
   fun e h => Bool.noConfusion
     (((claim4_text_error_scope sNoText sNoText defaultOptions [] []).1
       e).mp h).1⟩

/-- C4 counterexample: a complete run over a file whose only sentence has
no `# text = ` comment finishes without any error when the duplicate
filter is off (the claim says any such sentence makes the run fail). -/
theorem claim4_counterexample :
    (mainRun fPath gPath defaultOptions c4lines c4lines 3).isOk = true ∧
      c4lines.filter (fun l => pyStartsWith l textMarker) = [] :=
  ⟨rfl, by decide⟩

end ConlluMatches
